import Mathlib

/-!
Shallow embedding of the PDF-to-voice service (src/app.py, FastAPI) and the
dashboard save handler (src/app1.py, Streamlit).

The external inference library (OpenVoice: speaker-embedding extraction, base
TTS, tone-color conversion), pydub audio decoding, uuid generation and
tempfile path generation are opaque collaborators; each call is modelled by
an oracle field: a value for what it returns and a Bool for whether it raises.
The handlers themselves are translated line by line from the Python source:
the registry is the module-level dict `reference_audios` (a Python dict is an
insertion-ordered association list with unique keys; assignment replaces in
place, `del` removes), and the filesystem is the list of paths that exist.
-/

namespace AudioBook

/-- One voice sample record, as stored in `reference_audios[voice_id]` /
`st.session_state.voice_samples[voice_name]`: the opaque speaker embedding
(modelled as a `Nat` token produced by the embedding oracle) and the path of
the processed reference clip. -/
structure VoiceRecord where
  embedding : Nat
  audio_path : String
  deriving Repr, DecidableEq

/-- The in-memory registry: a Python dict from identifier to record. -/
abbrev Registry := List (String × VoiceRecord)

/-- Python `d[k]` / `k in d`: first (unique) binding of `k`. -/
def dictGet (k : String) : Registry → Option VoiceRecord
  | [] => none
  | (k0, v) :: rest => if k0 = k then some v else dictGet k rest

/-- Python `d[k] = v`: replace in place when the key exists, append otherwise. -/
def dictInsert (k : String) (v : VoiceRecord) : Registry → Registry
  | [] => [(k, v)]
  | (k0, v0) :: rest =>
      if k0 = k then (k, v) :: rest else (k0, v0) :: dictInsert k v rest

/-- Python `del d[k]`: drop the (unique) binding of `k`. -/
def dictDel (k : String) : Registry → Registry
  | [] => []
  | (k0, v0) :: rest => if k0 = k then rest else (k0, v0) :: dictDel k rest

/-- Python `list(d.keys())`. -/
def dictKeys (d : Registry) : List String := d.map Prod.fst

/-- The filesystem, as the list of paths that currently exist. -/
abbrev Disk := List String

/-- Creating or overwriting a file at path `p`. -/
def writeFile (p : String) (d : Disk) : Disk := if p ∈ d then d else p :: d

/-- `os.remove` / `os.unlink` at path `p`: afterwards `p` does not exist. -/
def removeFile (p : String) (d : Disk) : Disk := d.filter (fun q => q ≠ p)

/-- Whole server state of app.py: the module-level `reference_audios` dict
and the filesystem. -/
structure ServerState where
  reference_audios : Registry
  disk : Disk
  deriving Repr, DecidableEq

/-- A FastAPI handler outcome: a successful payload, or an `HTTPException`
carrying a status code and a detail string. -/
inductive Resp (α : Type) where
  | ok : α → Resp α
  | httpError : Nat → String → Resp α
  deriving Repr, DecidableEq

/-- Success payload of `upload_voice_sample`: the JSON body
`{voice_id, message}`. -/
structure UploadOk where
  voice_id : String
  message : String
  deriving Repr, DecidableEq

/-- Oracle for one `upload_voice_sample` request: the uuid4 value, the
`NamedTemporaryFile` path, whether pydub decoding/processing succeeds,
whether `audio.export` succeeds, the extracted speaker embedding and whether
`se_extractor.get_se` succeeds, and whether the final `os.unlink` succeeds. -/
structure UploadOracle where
  voice_id : String
  tmp_path : String
  processOk : Bool
  exportOk : Bool
  embedding : Nat
  embedOk : Bool
  unlinkOk : Bool
  deriving Repr, DecidableEq

/-- The processed-clip path `f"processed_\x7bvoice_id\x7d.wav"`. -/
def processedPath (voice_id : String) : String :=
  "processed_" ++ voice_id ++ ".wav"

/-- `POST /upload_voice_sample/` (src/app.py lines 29-66). Steps in source
order: write the upload to a `NamedTemporaryFile` (delete=False, so an
exception later leaves it in place), decode and normalize with pydub, export
the processed clip, extract the speaker embedding, store the record in
`reference_audios`, unlink the temp file, return the JSON body. Any raise is
caught by the `except` clause and reported as HTTP 500. -/
def upload_voice_sample (o : UploadOracle) (s : ServerState) :
    Resp UploadOk × ServerState :=
  let disk1 := writeFile o.tmp_path s.disk
  if o.processOk then
    if o.exportOk then
      let disk2 := writeFile (processedPath o.voice_id) disk1
      if o.embedOk then
        let reg1 := dictInsert o.voice_id
          ⟨o.embedding, processedPath o.voice_id⟩ s.reference_audios
        if o.unlinkOk then
          (Resp.ok ⟨o.voice_id, "Voice sample uploaded successfully"⟩,
           ⟨reg1, removeFile o.tmp_path disk2⟩)
        else
          (Resp.httpError 500 "Error processing voice sample",
           ⟨reg1, disk2⟩)
      else
        (Resp.httpError 500 "Error processing voice sample",
         ⟨s.reference_audios, disk2⟩)
    else
      (Resp.httpError 500 "Error processing voice sample",
       ⟨s.reference_audios, disk1⟩)
  else
    (Resp.httpError 500 "Error processing voice sample",
     ⟨s.reference_audios, disk1⟩)

/-- Text accumulated from the PDF pages:
`for page in pdf_reader.pages: text += page.extract_text() + "\n"`. -/
def extractText (pages : List String) : String :=
  String.join (pages.map (fun p => p ++ "\n"))

/-- Default whitespace stripped by Python `str.strip()`. -/
def isPyWhitespace (c : Char) : Bool :=
  c = ' ' || c = '\t' || c = '\n' || c = '\r' || c = '\x0b' || c = '\x0c'

/-- Python `not text.strip()`: the text strips to the empty string. -/
def stripIsEmpty (s : String) : Bool := s.toList.all isPyWhitespace

/-- Success payload of `convert_pdf`: the `FileResponse` as constructed at
return time — the served path, the audio content at that path when the
response object is built (as an opaque `Nat` token), the message string the
handler chose, and whether the tone-color conversion step ran. -/
structure ConvertOut where
  path : String
  content : Nat
  message : String
  toneConverterInvoked : Bool
  deriving Repr, DecidableEq

/-- Oracle for one `convert_pdf` request: the `TemporaryDirectory` path,
whether `base_speaker_tts.tts` succeeds and what waveform it produces from
(text, language), the source embedding `se_extractor.get_se(base_audio)` and
whether that call succeeds, and whether `tone_color_converter.convert`
succeeds and what waveform it produces from (source, target) embeddings. -/
structure ConvertOracle where
  tmp_dir : String
  ttsOk : Bool
  tts : String → String → Nat
  srcSe : Nat
  seOk : Bool
  convOk : Bool
  conv : Nat → Nat → Nat

/-- Path of the base TTS output inside the temp directory. -/
def baseAudioPath (o : ConvertOracle) : String := o.tmp_dir ++ "/base_audio.wav"

/-- Path of the tone-converted output inside the temp directory. -/
def clonedAudioPath (o : ConvertOracle) : String := o.tmp_dir ++ "/cloned_audio.wav"

/-- The guard `if voice_id and voice_id in reference_audios:`: `None` and the
empty string are falsy, otherwise the dict is consulted. -/
def cloneLookup (voice_id : Option String) (reg : Registry) : Option VoiceRecord :=
  match voice_id with
  | none => none
  | some v => if v = "" then none else dictGet v reg

/-- Exiting the `with tempfile.TemporaryDirectory()` block: every file the
request created inside the directory (at most the base and cloned outputs)
is deleted. -/
def cleanupTmpDir (o : ConvertOracle) (d : Disk) : Disk :=
  removeFile (clonedAudioPath o) (removeFile (baseAudioPath o) d)

/-- `POST /convert_pdf/` (src/app.py lines 68-123). Steps in source order:
read the PDF and accumulate per-page text; if the text strips to empty,
raise `HTTPException(400, ...)` — which the handler's own
`except Exception` clause catches and rewraps as a 500; otherwise enter a
temp directory, run base TTS; when `voice_id` is truthy and present in
`reference_audios`, extract the source embedding and run tone conversion and
serve the cloned file, else serve the base file; the `FileResponse` is
constructed and then the temp directory is removed as the `with` block
exits, before the handler's caller consumes the response. -/
def convert_pdf (o : ConvertOracle) (pages : List String)
    (voice_id : Option String) (language : String) (s : ServerState) :
    Resp ConvertOut × ServerState :=
  let text := extractText pages
  if stripIsEmpty text then
    (Resp.httpError 500
      "Error converting PDF: 400: No text could be extracted from PDF", s)
  else
    if o.ttsOk then
      let disk1 := writeFile (baseAudioPath o) s.disk
      match cloneLookup voice_id s.reference_audios with
      | some reference_info =>
          if o.seOk then
            if o.convOk then
              let disk2 := writeFile (clonedAudioPath o) disk1
              (Resp.ok ⟨clonedAudioPath o, o.conv o.srcSe reference_info.embedding,
                 "PDF converted to audio with voice cloning", true⟩,
               ⟨s.reference_audios, cleanupTmpDir o disk2⟩)
            else
              (Resp.httpError 500 "Error converting PDF",
               ⟨s.reference_audios, cleanupTmpDir o disk1⟩)
          else
            (Resp.httpError 500 "Error converting PDF",
             ⟨s.reference_audios, cleanupTmpDir o disk1⟩)
      | none =>
          (Resp.ok ⟨baseAudioPath o, o.tts text language,
             "PDF converted to audio with default voice", false⟩,
           ⟨s.reference_audios, cleanupTmpDir o disk1⟩)
    else
      (Resp.httpError 500 "Error converting PDF",
       ⟨s.reference_audios, cleanupTmpDir o s.disk⟩)

/-- `GET /list_voices/` (src/app.py lines 125-128):
`{"voices": list(reference_audios.keys())}`. -/
def list_voices (s : ServerState) : List String × ServerState :=
  (dictKeys s.reference_audios, s)

/-- `DELETE /delete_voice/\x7bvoice_id\x7d` (src/app.py lines 130-141): when
the id is a key, remove the backing file if it exists and delete the record;
otherwise raise `HTTPException(404, ...)` — this handler has no try/except,
so the 404 reaches the client as is. -/
def delete_voice (voice_id : String) (s : ServerState) :
    Resp String × ServerState :=
  match dictGet voice_id s.reference_audios with
  | some record =>
      let disk1 :=
        if record.audio_path ∈ s.disk then removeFile record.audio_path s.disk
        else s.disk
      (Resp.ok ("Voice " ++ voice_id ++ " deleted successfully"),
       ⟨dictDel voice_id s.reference_audios, disk1⟩)
  | none => (Resp.httpError 404 "Voice ID not found", s)

/-- Dashboard session state (src/app1.py): the
`st.session_state.voice_samples` dict keyed by the user-chosen name, and the
filesystem. -/
structure DashState where
  voice_samples : Registry
  disk : Disk
  deriving Repr, DecidableEq

/-- A dashboard handler outcome: `st.success` or `st.error` with its text. -/
inductive DashResult where
  | success : String → DashResult
  | failure : String → DashResult
  deriving Repr, DecidableEq

/-- Dashboard Save Voice Sample handler (src/app1.py lines 205-244). Same
steps as `upload_voice_sample`, except the record is stored under the
user-chosen `voice_name` (dict assignment, so an existing name is replaced
in place) and outcomes are reported through `st.success` / `st.error`. -/
def save_voice_sample (o : UploadOracle) (voice_name : String) (st : DashState) :
    DashResult × DashState :=
  let disk1 := writeFile o.tmp_path st.disk
  if o.processOk then
    if o.exportOk then
      let disk2 := writeFile (processedPath o.voice_id) disk1
      if o.embedOk then
        let reg1 := dictInsert voice_name
          ⟨o.embedding, processedPath o.voice_id⟩ st.voice_samples
        if o.unlinkOk then
          (DashResult.success
             ("Voice sample " ++ voice_name ++ " saved successfully!"),
           ⟨reg1, removeFile o.tmp_path disk2⟩)
        else
          (DashResult.failure "Error processing voice sample", ⟨reg1, disk2⟩)
      else
        (DashResult.failure "Error processing voice sample",
         ⟨st.voice_samples, disk2⟩)
    else
      (DashResult.failure "Error processing voice sample",
       ⟨st.voice_samples, disk1⟩)
  else
    (DashResult.failure "Error processing voice sample",
     ⟨st.voice_samples, disk1⟩)

end AudioBook

namespace AudioBook

theorem mem_keys_dictInsert (k : String) (v : VoiceRecord) (d : Registry) :
    k ∈ dictKeys (dictInsert k v d) := by
  induction d with
  | nil => simp [dictInsert, dictKeys]
  | cons hd tl ih =>
      obtain ⟨k0, v0⟩ := hd
      by_cases h : k0 = k
      · simp [dictInsert, dictKeys, h]
      · simpa [dictInsert, dictKeys, h] using Or.inr ih

theorem get_dictInsert_self (k : String) (v : VoiceRecord) (d : Registry) :
    dictGet k (dictInsert k v d) = some v := by
  induction d with
  | nil => simp [dictInsert, dictGet]
  | cons hd tl ih =>
      obtain ⟨k0, v0⟩ := hd
      by_cases h : k0 = k
      · simp [dictInsert, dictGet, h]
      · simpa [dictInsert, dictGet, h] using ih

theorem not_mem_keys_dictDel (k : String) (d : Registry)
    (hnd : (dictKeys d).Nodup) : k ∉ dictKeys (dictDel k d) := by
  induction d with
  | nil => simp [dictDel, dictKeys]
  | cons hd tl ih =>
      obtain ⟨k0, v0⟩ := hd
      simp only [dictKeys, List.map_cons, List.nodup_cons] at hnd
      by_cases h : k0 = k
      · subst h
        simpa [dictDel, dictKeys] using hnd.1
      · have hk : k ∉ dictKeys (dictDel k tl) := ih hnd.2
        simp [dictDel, dictKeys, h] at hk ⊢
        exact ⟨fun he => h he.symm, hk⟩

theorem not_mem_removeFile (p : String) (d : Disk) : p ∉ removeFile p d := by
  simp [removeFile]

theorem mem_removeFile_of_ne (p q : String) (d : Disk)
    (hq : q ∈ d) (hne : q ≠ p) : q ∈ removeFile p d := by
  simp [removeFile, hne, hq]

/-- C1: when `upload_voice_sample` succeeds and returns the body carrying a
`voice_id`, that id is among the keys a subsequent `list_voices` reports. -/
theorem upload_then_listed (o : UploadOracle) (s : ServerState)
    (r : UploadOk) (s' : ServerState)
    (h : upload_voice_sample o s = (Resp.ok r, s')) :
    r.voice_id ∈ (list_voices s').1 := by
  cases hp : o.processOk <;> cases he : o.exportOk <;> cases hm : o.embedOk <;>
    cases hu : o.unlinkOk <;>
      simp [upload_voice_sample, hp, he, hm, hu] at h
  obtain ⟨h1, h2⟩ := h
  subst h1
  subst h2
  simpa [list_voices] using
    mem_keys_dictInsert o.voice_id _ s.reference_audios

/-- C1 witness: a concrete all-steps-succeed upload on the empty state. -/
theorem upload_then_listed_witness :
    ("v1" : String) ∈
      (list_voices (upload_voice_sample ⟨"v1", "tmp1", true, true, 5, true, true⟩
        ⟨[], []⟩).2).1 :=
  upload_then_listed ⟨"v1", "tmp1", true, true, 5, true, true⟩ ⟨[], []⟩
    ⟨"v1", "Voice sample uploaded successfully"⟩
    ⟨[("v1", ⟨5, "processed_v1.wav"⟩)], ["processed_v1.wav"]⟩ rfl

/-- C2: for a `voice_id` that is a key of the registry, `delete_voice`
succeeds, its record is gone from the registry, its backing audio file is
gone from disk, and a subsequent `list_voices` excludes the id. -/
theorem delete_voice_removes (v : String) (record : VoiceRecord)
    (s : ServerState)
    (hget : dictGet v s.reference_audios = some record)
    (hnd : (dictKeys s.reference_audios).Nodup) :
    (delete_voice v s).1 = Resp.ok ("Voice " ++ v ++ " deleted successfully") ∧
    v ∉ dictKeys ((delete_voice v s).2.reference_audios) ∧
    record.audio_path ∉ (delete_voice v s).2.disk ∧
    v ∉ (list_voices (delete_voice v s).2).1 := by
  have hdel : v ∉ dictKeys (dictDel v s.reference_audios) :=
    not_mem_keys_dictDel v s.reference_audios hnd
  unfold delete_voice
  rw [hget]
  refine ⟨rfl, hdel, ?_, hdel⟩
  by_cases hmem : record.audio_path ∈ s.disk
  · simpa [hmem] using not_mem_removeFile record.audio_path s.disk
  · simp [hmem]

/-- C2 witness: deleting the only registered voice of a concrete state. -/
theorem delete_voice_removes_witness :
    dictGet "v1" [("v1", (⟨5, "processed_v1.wav"⟩ : VoiceRecord))] =
        some ⟨5, "processed_v1.wav"⟩ ∧
    (dictKeys [("v1", (⟨5, "processed_v1.wav"⟩ : VoiceRecord))]).Nodup ∧
    ((delete_voice "v1" ⟨[("v1", ⟨5, "processed_v1.wav"⟩)],
        ["processed_v1.wav"]⟩).1 =
      Resp.ok ("Voice " ++ "v1" ++ " deleted successfully") ∧
    "v1" ∉ dictKeys ((delete_voice "v1" ⟨[("v1", ⟨5, "processed_v1.wav"⟩)],
        ["processed_v1.wav"]⟩).2.reference_audios) ∧
    "processed_v1.wav" ∉ (delete_voice "v1" ⟨[("v1", ⟨5, "processed_v1.wav"⟩)],
        ["processed_v1.wav"]⟩).2.disk ∧
    "v1" ∉ (list_voices ((delete_voice "v1" ⟨[("v1", ⟨5, "processed_v1.wav"⟩)],
        ["processed_v1.wav"]⟩).2)).1) :=
  ⟨by decide, by decide,
   delete_voice_removes "v1" ⟨5, "processed_v1.wav"⟩
     ⟨[("v1", ⟨5, "processed_v1.wav"⟩)], ["processed_v1.wav"]⟩
     (by decide) (by decide)⟩

end AudioBook

namespace AudioBook

/-- C6: neither `convert_pdf` nor `list_voices` changes the voice registry;
records enter only through `upload_voice_sample` and leave only through
`delete_voice`. -/
theorem convert_and_list_preserve_registry (o : ConvertOracle)
    (pages : List String) (voice_id : Option String) (language : String)
    (s : ServerState) :
    (convert_pdf o pages voice_id language s).2.reference_audios =
      s.reference_audios ∧
    (list_voices s).2 = s := by
  refine ⟨?_, rfl⟩
  unfold convert_pdf
  dsimp only
  repeat' split
  all_goals rfl

/-- C8: a `convert_pdf` request whose voice lookup misses (no voice_id, the
empty string, or an id absent from the registry on both sides) produces the
same response whatever the registry contains. -/
theorem convert_default_independent_of_registry (o : ConvertOracle)
    (pages : List String) (voice_id : Option String) (language : String)
    (s₁ s₂ : ServerState)
    (h₁ : cloneLookup voice_id s₁.reference_audios = none)
    (h₂ : cloneLookup voice_id s₂.reference_audios = none) :
    (convert_pdf o pages voice_id language s₁).1 =
      (convert_pdf o pages voice_id language s₂).1 := by
  unfold convert_pdf
  dsimp only
  rw [h₁, h₂]
  cases hst : stripIsEmpty (extractText pages) <;>
    cases htts : o.ttsOk <;> simp [hst, htts]

/-- C8 witness: one-voice registry versus empty registry, no voice_id. -/
theorem convert_default_independent_of_registry_witness :
    cloneLookup none
        (ServerState.mk [("a", ⟨1, "pa"⟩)] ["pa"]).reference_audios = none ∧
    cloneLookup none (ServerState.mk [] []).reference_audios = none ∧
    (convert_pdf ⟨"tmp", true, fun _ _ => 7, 3, true, true, fun _ _ => 9⟩
        ["hello"] none "english" ⟨[("a", ⟨1, "pa"⟩)], ["pa"]⟩).1 =
      (convert_pdf ⟨"tmp", true, fun _ _ => 7, 3, true, true, fun _ _ => 9⟩
        ["hello"] none "english" ⟨[], []⟩).1 :=
  ⟨rfl, rfl,
   convert_default_independent_of_registry
     ⟨"tmp", true, fun _ _ => 7, 3, true, true, fun _ _ => 9⟩
     ["hello"] none "english" ⟨[("a", ⟨1, "pa"⟩)], ["pa"]⟩ ⟨[], []⟩ rfl rfl⟩

/-- C3: when the accumulated page text strips to nothing, `convert_pdf`
answers with an error response (the internal 400 is swallowed by the
handler's own except clause and resurfaces as a 500) and never with a file
response. -/
theorem convert_blank_pdf_rejected (o : ConvertOracle) (pages : List String)
    (voice_id : Option String) (language : String) (s : ServerState)
    (h : stripIsEmpty (extractText pages) = true) :
    (convert_pdf o pages voice_id language s).1 =
      Resp.httpError 500
        "Error converting PDF: 400: No text could be extracted from PDF" ∧
    ∀ out : ConvertOut,
      (convert_pdf o pages voice_id language s).1 ≠ Resp.ok out := by
  refine ⟨by simp [convert_pdf, h], fun out hout => ?_⟩
  simp [convert_pdf, h] at hout

end AudioBook

namespace AudioBook

theorem mem_writeFile_of_mem (p q : String) (d : Disk) (hq : q ∈ d) :
    q ∈ writeFile p d := by
  by_cases h : p ∈ d <;> simp [writeFile, h, hq]

/-- C3 witness: a two-page PDF whose accumulated text is only whitespace. -/
theorem convert_blank_pdf_rejected_witness :
    stripIsEmpty (extractText [" ", ""]) = true ∧
    (convert_pdf ⟨"tmp", true, fun _ _ => 7, 3, true, true, fun _ _ => 9⟩
        [" ", ""] none "english" ⟨[], []⟩).1 =
      Resp.httpError 500
        "Error converting PDF: 400: No text could be extracted from PDF" :=
  ⟨by decide,
   (convert_blank_pdf_rejected
      ⟨"tmp", true, fun _ _ => 7, 3, true, true, fun _ _ => 9⟩
      [" ", ""] none "english" ⟨[], []⟩ (by decide)).1⟩

/-- C4: a `convert_pdf` request whose voice_id is absent from the registry
behaves exactly like a request with no voice_id at all — same response and
same state — and any success it produces is the default-voice base-TTS
output with the tone-color converter not invoked. -/
theorem convert_unknown_voice_defaults (o : ConvertOracle)
    (pages : List String) (v : String) (language : String) (s : ServerState)
    (hget : dictGet v s.reference_audios = none) :
    convert_pdf o pages (some v) language s =
      convert_pdf o pages none language s ∧
    ∀ out : ConvertOut,
      (convert_pdf o pages (some v) language s).1 = Resp.ok out →
        out = ⟨baseAudioPath o, o.tts (extractText pages) language,
               "PDF converted to audio with default voice", false⟩ := by
  have hcl : cloneLookup (some v) s.reference_audios = none := by
    by_cases hv : v = "" <;> simp [cloneLookup, hv, hget]
  constructor
  · unfold convert_pdf
    dsimp only
    rw [hcl]
    simp only [cloneLookup]
  · intro out hout
    unfold convert_pdf at hout
    dsimp only at hout
    rw [hcl] at hout
    cases hst : stripIsEmpty (extractText pages) <;>
      cases htts : o.ttsOk <;> simp [hst, htts] at hout
    exact hout.symm

/-- C4 witness: an id unknown to a one-voice registry. -/
theorem convert_unknown_voice_defaults_witness :
    dictGet "ghost"
        (ServerState.mk [("a", ⟨1, "pa"⟩)] ["pa"]).reference_audios = none ∧
    convert_pdf ⟨"tmp", true, fun _ _ => 7, 3, true, true, fun _ _ => 9⟩
        ["hi"] (some "ghost") "english" ⟨[("a", ⟨1, "pa"⟩)], ["pa"]⟩ =
      convert_pdf ⟨"tmp", true, fun _ _ => 7, 3, true, true, fun _ _ => 9⟩
        ["hi"] none "english" ⟨[("a", ⟨1, "pa"⟩)], ["pa"]⟩ :=
  ⟨by decide,
   (convert_unknown_voice_defaults
      ⟨"tmp", true, fun _ _ => 7, 3, true, true, fun _ _ => 9⟩
      ["hi"] "ghost" "english" ⟨[("a", ⟨1, "pa"⟩)], ["pa"]⟩ (by decide)).1⟩

/-- Status code carried by a handler outcome, `none` on success. -/
def errStatus {α : Type} : Resp α → Option Nat
  | Resp.ok _ => none
  | Resp.httpError c _ => some c

/-- C5 counterexample: `delete_voice` on an unknown id answers 404 — its
`HTTPException(404, ...)` is raised outside any try/except — so not every
failure is reported as a generic 500 server error. -/
theorem delete_unknown_voice_is_404 :
    (delete_voice "ghost" ⟨[], []⟩).1 =
      Resp.httpError 404 "Voice ID not found" ∧
    (404 : Nat) ≠ 500 :=
  ⟨rfl, by decide⟩

/-- C5 amended: `upload_voice_sample` and `convert_pdf` report every failure
as a 500 with the exception message; `delete_voice`'s only failure is the
404 for an unknown id; `list_voices` never fails. -/
theorem failure_status_taxonomy (o : UploadOracle) (co : ConvertOracle)
    (pages : List String) (voice_id : Option String) (language v : String)
    (s : ServerState) :
    (errStatus (upload_voice_sample o s).1 = none ∨
      errStatus (upload_voice_sample o s).1 = some 500) ∧
    (errStatus (convert_pdf co pages voice_id language s).1 = none ∨
      errStatus (convert_pdf co pages voice_id language s).1 = some 500) ∧
    (errStatus (delete_voice v s).1 = none ∨
      errStatus (delete_voice v s).1 = some 404) := by
  refine ⟨?_, ?_, ?_⟩
  · unfold upload_voice_sample
    dsimp only
    repeat' split
    all_goals simp [errStatus]
  · unfold convert_pdf
    dsimp only
    repeat' split
    all_goals simp [errStatus]
  · unfold delete_voice
    dsimp only
    repeat' split
    all_goals simp [errStatus]

/-- C7: evaluation at the failing inputs. An upload whose pydub decoding
raises answers 500 but leaves its `NamedTemporaryFile` on disk, because
`os.unlink` sits on the success path only; and a successful `convert_pdf`
serves a path inside the `TemporaryDirectory` that is already removed when
the handler completes, so the returned data is gone at cleanup time. -/
theorem temp_file_divergence :
    ((upload_voice_sample ⟨"v1", "tmpleak", false, true, 5, true, true⟩
        ⟨[], []⟩).1 =
      Resp.httpError 500 "Error processing voice sample" ∧
     "tmpleak" ∈ (upload_voice_sample ⟨"v1", "tmpleak", false, true, 5, true,
        true⟩ ⟨[], []⟩).2.disk) ∧
    ((convert_pdf ⟨"tmp", true, fun _ _ => 7, 3, true, true, fun _ _ => 9⟩
        ["hi"] none "english" ⟨[], []⟩).1 =
      Resp.ok ⟨"tmp/base_audio.wav", 7,
        "PDF converted to audio with default voice", false⟩ ∧
     "tmp/base_audio.wav" ∉
      (convert_pdf ⟨"tmp", true, fun _ _ => 7, 3, true, true, fun _ _ => 9⟩
        ["hi"] none "english" ⟨[], []⟩).2.disk) :=
  ⟨⟨rfl, by decide⟩, ⟨rfl, by decide⟩⟩

/-- C9 counterexample: when the final `os.unlink` raises, the handler
answers 500 yet the record was stored just before, so an erroring upload can
change the registry. -/
theorem upload_error_after_store_changes_registry :
    (upload_voice_sample ⟨"v1", "tmp1", true, true, 5, true, false⟩
        ⟨[], []⟩).1 =
      Resp.httpError 500 "Error processing voice sample" ∧
    (upload_voice_sample ⟨"v1", "tmp1", true, true, 5, true, false⟩
        ⟨[], []⟩).2.reference_audios ≠ ([] : Registry) :=
  ⟨rfl, by decide⟩

/-- C9 amended: an erroring upload leaves the registry unchanged exactly
when the raise happens before the store (pydub decoding, export, or
embedding extraction); a raise at the final temp-file unlink happens after
the store, so that error response leaves the new record registered. -/
theorem upload_error_atomicity (o : UploadOracle) (s : ServerState)
    (c : Nat) (m : String) (t : ServerState)
    (h : upload_voice_sample o s = (Resp.httpError c m, t)) :
    ((o.processOk = false ∨ o.exportOk = false ∨ o.embedOk = false) →
      t.reference_audios = s.reference_audios) ∧
    (o.processOk = true → o.exportOk = true → o.embedOk = true →
      t.reference_audios =
        dictInsert o.voice_id ⟨o.embedding, processedPath o.voice_id⟩
          s.reference_audios) := by
  cases hp : o.processOk <;> cases he : o.exportOk <;> cases hm : o.embedOk <;>
    cases hu : o.unlinkOk <;>
      simp [upload_voice_sample, hp, he, hm, hu] at h
  all_goals obtain ⟨h1, ht⟩ := h
  all_goals subst ht
  all_goals simp

/-- C9 amended witness: a decode failure on the empty state leaves the
registry empty. -/
theorem upload_error_atomicity_witness :
    upload_voice_sample ⟨"v1", "tmp1", false, true, 5, true, true⟩ ⟨[], []⟩ =
      (Resp.httpError 500 "Error processing voice sample",
       ⟨[], ["tmp1"]⟩) ∧
    (ServerState.mk [] ["tmp1"]).reference_audios =
      (ServerState.mk [] []).reference_audios :=
  ⟨by decide,
   (upload_error_atomicity ⟨"v1", "tmp1", false, true, 5, true, true⟩
      ⟨[], []⟩ 500 "Error processing voice sample" ⟨[], ["tmp1"]⟩
      (by decide)).1 (Or.inl rfl)⟩

/-- C10: saving a dashboard voice sample under a name already in the session
map succeeds, replaces the record in place with the new embedding and
processed path, and leaves the old record's backing audio file on disk. -/
theorem save_existing_name_replaces (o : UploadOracle) (voice_name : String)
    (old : VoiceRecord) (st : DashState)
    (_hold : dictGet voice_name st.voice_samples = some old)
    (hp : o.processOk = true) (he : o.exportOk = true)
    (hm : o.embedOk = true) (hu : o.unlinkOk = true)
    (hdisk : old.audio_path ∈ st.disk)
    (hne : old.audio_path ≠ o.tmp_path) :
    (save_voice_sample o voice_name st).1 =
      DashResult.success
        ("Voice sample " ++ voice_name ++ " saved successfully!") ∧
    dictGet voice_name (save_voice_sample o voice_name st).2.voice_samples =
      some ⟨o.embedding, processedPath o.voice_id⟩ ∧
    old.audio_path ∈ (save_voice_sample o voice_name st).2.disk := by
  have h1 : save_voice_sample o voice_name st =
      (DashResult.success
         ("Voice sample " ++ voice_name ++ " saved successfully!"),
       ⟨dictInsert voice_name ⟨o.embedding, processedPath o.voice_id⟩
          st.voice_samples,
        removeFile o.tmp_path (writeFile (processedPath o.voice_id)
          (writeFile o.tmp_path st.disk))⟩) := by
    simp [save_voice_sample, hp, he, hm, hu]
  rw [h1]
  exact ⟨rfl, get_dictInsert_self _ _ _,
    mem_removeFile_of_ne _ _ _
      (mem_writeFile_of_mem _ _ _ (mem_writeFile_of_mem _ _ _ hdisk)) hne⟩

/-- C10 witness: overwriting the stored name with a fresh sample. -/
theorem save_existing_name_replaces_witness :
    dictGet "myvoice"
        (DashState.mk [("myvoice", ⟨1, "processed_old.wav"⟩)]
          ["processed_old.wav"]).voice_samples =
      some ⟨1, "processed_old.wav"⟩ ∧
    ((save_voice_sample ⟨"u2", "tmpX", true, true, 8, true, true⟩ "myvoice"
        ⟨[("myvoice", ⟨1, "processed_old.wav"⟩)], ["processed_old.wav"]⟩).1 =
      DashResult.success
        ("Voice sample " ++ "myvoice" ++ " saved successfully!") ∧
    dictGet "myvoice"
        (save_voice_sample ⟨"u2", "tmpX", true, true, 8, true, true⟩ "myvoice"
          ⟨[("myvoice", ⟨1, "processed_old.wav"⟩)],
           ["processed_old.wav"]⟩).2.voice_samples =
      some ⟨8, processedPath "u2"⟩ ∧
    "processed_old.wav" ∈
      (save_voice_sample ⟨"u2", "tmpX", true, true, 8, true, true⟩ "myvoice"
        ⟨[("myvoice", ⟨1, "processed_old.wav"⟩)],
         ["processed_old.wav"]⟩).2.disk) :=
  ⟨by decide,
   save_existing_name_replaces ⟨"u2", "tmpX", true, true, 8, true, true⟩
     "myvoice" ⟨1, "processed_old.wav"⟩
     ⟨[("myvoice", ⟨1, "processed_old.wav"⟩)], ["processed_old.wav"]⟩
     (by decide) rfl rfl rfl rfl (by decide) (by decide)⟩

end AudioBook
